import Mathlib

/-
Verification development for the il-salary-tracker repository.

The Python sources are shallowly embedded:
 * `src/api_client.py`   — `RateLimiter` and `TheirStackAPIClient.fetch_all_jobs`
 * `src/company_cache.py` — `CompanyCache`
 * `src/data_utils.py`    — `DataValidator`

Conventions of the embedding:
 * Wall-clock time is a synthetic clock: an integer (`ℤ`, in hundredths of a
   second for the rate limiter) or a natural number of abstract seconds.
 * Python exceptions are modelled with `Except PyErr`; a function that cannot
   raise is total.
 * Calls into external libraries whose string grammar cannot be reproduced
   (pandas `to_datetime`, `dateutil`, `dateparser`) are modelled by carrying
   the library's verdict on the concrete string alongside the string itself
   (see `RawDate` and `StrTok`); the repository's own control flow around
   those verdicts is translated line by line.
-/

/-- The Python exception classes that the translated code can raise. -/
inductive PyErr
  | requestException   -- requests.exceptions.RequestException
  | keyError           -- KeyError
  | valueError         -- ValueError / pandas date-parse errors
  | typeError          -- TypeError
  | attributeError     -- AttributeError
  | indexError         -- IndexError
deriving DecidableEq, Repr

deriving instance DecidableEq for Except

/-- A calendar date (the payload of a pandas `Timestamp`, day precision). -/
structure SDate where
  y : ℕ
  m : ℕ
  d : ℕ
deriving DecidableEq, Repr

/-- Total order key for dates; for genuine calendar dates (m ≤ 12, d ≤ 31)
this agrees with chronological order. -/
def SDate.key (a : SDate) : ℕ := a.y * 10000 + a.m * 100 + a.d

/- ------------------------------------------------------------------
   src/api_client.py, lines 20-40: class RateLimiter.

   Timestamps are integers on a synthetic clock (hundredths of a second, so
   `time_window = 60` seconds is 6000 ticks in the concrete runs below).
   ------------------------------------------------------------------ -/

/-- State of `RateLimiter`: the construction parameters and the deque of
recorded send timestamps (front = oldest). -/
structure RateLimiter where
  max_requests : ℤ
  time_window : ℤ
  requests : List ℤ
deriving DecidableEq, Repr

/-- Model of `RateLimiter.__init__` (lines 23-27): stores the parameters and an empty
deque.  The source performs no validation and has no raise path, so the
embedding is a total function. -/
def mkRateLimiter (max_requests time_window : ℤ) : RateLimiter :=
  ⟨max_requests, time_window, []⟩

/-- Model of `RateLimiter.wait_if_needed` (lines 29-40), on a synthetic clock.
`now` is the entry time of the call.  Returns the new state together with the
time at which the call returns (entry time plus any sleep) — the moment the
caller's send is admitted.  Line-by-line:
 * prune: `while requests and requests[0] < now - time_window: popleft()`;
 * if `len(requests) >= max_requests`: `wait = requests[0] + time_window - now`,
   and `sleep(wait)` when positive (`requests[0]` on an empty deque raises
   `IndexError`, reachable when `max_requests <= 0`);
 * `requests.append(now)` — note the source appends the *pre-sleep* `now`. -/
def waitIfNeeded (rl : RateLimiter) (now : ℤ) : Except PyErr (RateLimiter × ℤ) :=
  let pruned := rl.requests.dropWhile (fun t => decide (t < now - rl.time_window))
  if rl.max_requests ≤ (pruned.length : ℤ) then
    match pruned with
    | [] => .error .indexError
    | oldest :: _ =>
      let wait := oldest + rl.time_window - now
      .ok (⟨rl.max_requests, rl.time_window, pruned ++ [now]⟩,
           if 0 < wait then now + wait else now)
  else
    .ok (⟨rl.max_requests, rl.time_window, pruned ++ [now]⟩, now)

/-- Run a sequence of `wait_if_needed` calls, one per entry time, threading the
limiter state; returns the final state and the list of admission (return)
times. -/
def runRL : RateLimiter → List ℤ → Except PyErr (RateLimiter × List ℤ)
  | rl, [] => .ok (rl, [])
  | rl, t :: ts =>
    match waitIfNeeded rl t with
    | .error e => .error e
    | .ok (rl1, r) =>
      match runRL rl1 ts with
      | .error e => .error e
      | .ok (rl2, rs) => .ok (rl2, r :: rs)

/-- Number of admitted sends inside the trailing half-open window `(a, a + w]`. -/
def countInWindow (sends : List ℤ) (a w : ℤ) : ℕ :=
  (sends.filter (fun t => decide (a < t ∧ t ≤ a + w))).length

/-- A single-threaded caller can only start the next `wait_if_needed` call
after the previous one returned: each entry time from the second on must be at
least the previous call's return time. -/
def seqValid (entries sends : List ℤ) : Bool :=
  ((entries.drop 1).zip sends).all (fun p => decide (p.2 ≤ p.1))

/- ------------------------------------------------------------------
   src/company_cache.py: class CompanyCache.

   A Python dict is an insertion-ordered association list;
   `{**data, 'timestamp': now}` replaces the key in place when present and
   appends it otherwise (`assocSet`).  Time is a natural number of abstract
   units; `now - ts < duration` and `now - ts >= duration` are written in the
   subtraction-free forms `now < ts + duration` and `ts + duration ≤ now`,
   which agree with Python's signed timedelta comparisons.
   ------------------------------------------------------------------ -/

/-- A value stored in a cache entry: arbitrary JSON-ish payload data or the
write timestamp. -/
inductive CVal
  | num (n : ℤ)
  | time (t : ℕ)
deriving DecidableEq, Repr

/-- A Python dict with string keys. -/
abbrev PyDict := List (String × CVal)

/-- Key update with Python dict semantics: replace in place when the key is
present, append otherwise. -/
def assocSet {β : Type} (k : String) (v : β) (l : List (String × β)) :
    List (String × β) :=
  if (l.lookup k).isSome then
    l.map (fun p => if p.1 = k then (k, v) else p)
  else
    l ++ [(k, v)]

/-- Model of `data['timestamp']` for an entry.  Entries created by
`update_company_info` always carry the key (the Python code would raise
`KeyError` otherwise; no theorem below builds an entry without it). -/
def tsOf (d : PyDict) : ℕ :=
  match d.lookup "timestamp" with
  | some (.time t) => t
  | _ => 0

/-- In-memory state of `CompanyCache`: the ttl (`cache_duration`) and the
cache dict mapping company id to its stored entry. -/
structure CompanyCache where
  cache_duration : ℕ
  cache : List (String × PyDict)
deriving DecidableEq, Repr

/-- Model of `CompanyCache.get_company_info` (lines 42-48): return the stored entry —
the full dict, timestamp key included — when `now - timestamp < duration`,
else `None`. -/
def get_company_info (c : CompanyCache) (company_id : String) (now : ℕ) :
    Option PyDict :=
  match c.cache.lookup company_id with
  | some d => if now < tsOf d + c.cache_duration then some d else none
  | none => none

/-- Model of `CompanyCache.update_company_info` (lines 50-56): store
`{**company_data, 'timestamp': now}` under the id and write through.
`_save_cache` only touches the backing file; any I/O failure there is caught
and logged (see `save_cache` below), so the in-memory result is the same
either way. -/
def update_company_info (c : CompanyCache) (company_id : String)
    (company_data : PyDict) (now : ℕ) : CompanyCache :=
  { c with cache :=
      (assocSet company_id
        (assocSet "timestamp" (CVal.time now) company_data) c.cache) }

/-- Model of `CompanyCache.cleanup_expired` (lines 69-80): delete every entry with
`now - timestamp >= duration`, keep the rest in order, return how many were
deleted. -/
def cleanup_expired (c : CompanyCache) (now : ℕ) : CompanyCache × ℕ :=
  let expired := c.cache.filter (fun p => decide (tsOf p.2 + c.cache_duration ≤ now))
  ({ c with cache :=
      c.cache.filter (fun p => !decide (tsOf p.2 + c.cache_duration ≤ now)) },
   expired.length)

/- ------------------------------------------------------------------
   src/company_cache.py, lines 7-40: __init__ / _load_cache / _save_cache.
   ------------------------------------------------------------------ -/

/-- The possible conditions of the backing file when the cache is built. -/
inductive CacheStore
  | missing                                  -- os.path.exists is False
  | corrupt                                  -- json.load (or timestamp parse) raises
  | good (entries : List (String × PyDict))  -- loads cleanly
deriving DecidableEq, Repr

/-- Model of `CompanyCache._load_cache` (lines 13-26).  The `except` handler logs via
`self.logger`; `loggerDefined` records whether that attribute exists at call
time.  `__init__` calls `_load_cache` *before* assigning `self.logger`
(line 10 vs line 11), so from `__init__` the handler itself raises
`AttributeError` instead of degrading to an empty cache. -/
def load_cache (store : CacheStore) (loggerDefined : Bool) :
    Except PyErr (List (String × PyDict)) :=
  match store with
  | .missing => .ok []                       -- exists() is False; falls to `return {}`
  | .good e => .ok e
  | .corrupt =>
      if loggerDefined then .ok [] else .error .attributeError

/-- Model of `CompanyCache.__init__` (lines 7-11): sets `cache_file`, `cache_duration`,
then `self.cache = self._load_cache()` — with `self.logger` not yet assigned —
and only then `self.logger = ...`. -/
def companyCacheInit (cache_duration : ℕ) (store : CacheStore) :
    Except PyErr CompanyCache :=
  match load_cache store false with
  | .ok c => .ok ⟨cache_duration, c⟩
  | .error e => .error e

/-- Model of `CompanyCache._save_cache` (lines 28-40): serialize and write the cache.
The whole body is inside `try/except`; by the time any save runs, `__init__`
has finished, so `self.logger` exists and a failed write (`ioFails = true`) is
logged and swallowed.  The in-memory cache is unchanged in every case. -/
def save_cache (c : CompanyCache) (ioFails : Bool) : CompanyCache :=
  match ioFails with
  | true => c    -- exception caught, logged; no state change, nothing propagates
  | false => c   -- write succeeded; no state change

/- ------------------------------------------------------------------
   src/api_client.py, lines 176-252: TheirStackAPIClient.fetch_all_jobs.

   One underlying `search_jobs` call is one item of a response script:
   either a raw job list or a `requests.exceptions.RequestException`.  The
   pagination/retry loop is translated statement by statement; the trailing
   DataFrame stage (lines 237-248) is `finalize` below.
   ------------------------------------------------------------------ -/

/-- The value a raw job carries under `posted_at`, classified by what
`pd.to_datetime` does with it: absent (`None`, which pandas turns into `NaT`
without raising), a value pandas parses to the given calendar date, or a
string on which pandas raises (the source calls `pd.to_datetime` with the
default `errors` behaviour, which is to raise). -/
inductive RawDate
  | missing
  | parsed (y m d : ℕ)
  | unparseable (s : String)
deriving DecidableEq, Repr

/-- Returns `true` unless the value would make `pd.to_datetime(...)` (default,
raising) throw. -/
def notRaising : RawDate → Bool
  | .unparseable _ => false
  | _ => true

/-- Elementwise `pd.to_datetime` with `errors='coerce'`: failures become
`NaT` (`none`). -/
def pdCoerce : RawDate → Option SDate
  | .missing => none
  | .parsed y m d => some ⟨y, m, d⟩
  | .unparseable _ => none

/-- Elementwise `pd.to_datetime` with the default raising behaviour:
`None` still becomes `NaT`, but an unparseable string raises. -/
def pdStrict : RawDate → Except PyErr (Option SDate)
  | .missing => .ok none
  | .parsed y m d => .ok (some ⟨y, m, d⟩)
  | .unparseable _ => .error .valueError

/-- A raw job item from one page of the upstream response.  Only `posted_at`
is ever examined by `fetch_all_jobs`; the remaining fields (`source`,
`company_name`, `title`, `url`, `location`, `description`) are copied
verbatim into the processed record and are abstracted as an opaque
`payload` tag. -/
structure RawJob where
  posted_at : RawDate
  payload : ℕ
deriving DecidableEq, Repr

/-- A `processed_job` dict as built in the loop body (lines 204-215):
`post_date` from `posted_at`, `date_found` set to today's date string, the
rest carried through. -/
structure PJob where
  post_date : RawDate
  date_found : String
  payload : ℕ
deriving DecidableEq, Repr

/-- A row of the returned DataFrame: `post_date` after the
`pd.to_datetime` conversion of line 242. -/
structure OutJob where
  post_date : Option SDate
  date_found : String
  payload : ℕ
deriving DecidableEq, Repr

/-- Loop body lines 204-215: build the processed record for one raw job. -/
def processJob (today : String) (r : RawJob) : PJob :=
  ⟨r.posted_at, today, r.payload⟩

/-- Outcome of one underlying `search_jobs` call in a simulated run. -/
inductive FetchOutcome
  | ok (jobs : List RawJob)
  | err                       -- requests.exceptions.RequestException
deriving DecidableEq, Repr

/-- The loop's mutable state, plus an observable trace: number of underlying
calls issued, the backoff sleeps performed, and the page index requested by
each call. -/
structure LoopSt where
  page : ℕ
  retryCount : ℕ
  acc : List PJob
  calls : ℕ
  waits : List ℕ
  pageReqs : List ℕ
deriving DecidableEq, Repr

/-- How the `while True` loop of lines 188-235 ends. -/
inductive LoopRes
  | finished (st : LoopSt)     -- a `break` was reached
  | raised (st : LoopSt)       -- `retry_count > max_retries`: the exception re-raises
  | outOfScript (st : LoopSt)  -- simulation artifact: the script ran out of responses
deriving DecidableEq, Repr

/-- Initial loop state (lines 178-183): `page = 0`, `retry_count = 0`,
empty accumulator. -/
def initSt : LoopSt := ⟨0, 0, [], 0, [], []⟩

/-- The pagination/retry loop (lines 188-235), one script item per
underlying call.  On a successful page: `break` when empty; append processed
jobs; `break` after a short page; else `page += 1`.  On a
`RequestException`: `retry_count += 1`; re-raise when
`retry_count > max_retries`; else sleep `retry_delay * retry_count` and retry
the same page.  In the source `max_retries = 3`, `retry_delay = 5`,
`limit = 100`. -/
def fetchLoopAux (maxRetries retryDelay limit : ℕ) (today : String) :
    List FetchOutcome → LoopSt → LoopRes
  | [], st => .outOfScript st
  | o :: rest, st =>
    let st1 := { st with calls := st.calls + 1, pageReqs := st.pageReqs ++ [st.page] }
    match o with
    | .ok jobs =>
      if jobs.isEmpty then .finished st1
      else
        let st2 := { st1 with acc := st1.acc ++ jobs.map (processJob today) }
        if jobs.length < limit then .finished st2
        else fetchLoopAux maxRetries retryDelay limit today rest
          { st2 with page := st2.page + 1 }
    | .err =>
      let rc := st1.retryCount + 1
      if maxRetries < rc then .raised { st1 with retryCount := rc }
      else fetchLoopAux maxRetries retryDelay limit today rest
        { st1 with retryCount := rc, waits := st1.waits ++ [retryDelay * rc] }

/-- Model of `pd.to_datetime(df['post_date'])` over the accumulated column, with the
default raising behaviour: the whole conversion fails on the first
unparseable string, otherwise each row is paired with its converted date. -/
def pdColumn : List PJob → Except PyErr (List (PJob × Option SDate))
  | [] => .ok []
  | j :: js =>
    match pdStrict j.post_date with
    | .error e => .error e
    | .ok d =>
      match pdColumn js with
      | .error e => .error e
      | .ok rest => .ok ((j, d) :: rest)

/-- The hard-coded minimum post date of line 245 (`'2025-01-01'`). -/
def minPostDate : SDate := ⟨2025, 1, 1⟩

/-- The boolean mask of line 245: `df['post_date'] >= '2025-01-01'`.
A `NaT` compares false and the row is dropped. -/
def keepB (q : PJob × Option SDate) : Bool :=
  match q.2 with
  | some d => decide (minPostDate.key ≤ d.key)
  | none => false

/-- Build the output row from a kept (record, converted date) pair. -/
def mkOutPair (q : PJob × Option SDate) : OutJob :=
  ⟨q.2, q.1.date_found, q.1.payload⟩

/-- Lines 237-248: build the DataFrame, convert `post_date`
(`pd.to_datetime`, raising), filter by the hard-coded bound.  On an empty
accumulator `pd.DataFrame([])` has no columns at all, so `df['post_date']`
raises `KeyError`. -/
def finalize (acc : List PJob) : Except PyErr (List OutJob) :=
  if acc.isEmpty then .error .keyError
  else
    match pdColumn acc with
    | .error e => .error e
    | .ok pairs => .ok ((pairs.filter keepB).map mkOutPair)

/-- What a caller of `fetch_all_jobs` observes in a simulated run: the
returned rows, a propagated exception, or the simulation running out of
scripted responses. -/
inductive SimResult
  | ok (records : List OutJob)
  | exc (e : PyErr)
  | outOfScript
deriving DecidableEq, Repr

/-- Model of `TheirStackAPIClient.fetch_all_jobs` (lines 176-252) against a response
script, with the source's constants `max_retries = 3`, `retry_delay = 5`,
`limit = 100`.  A loop exhaustion re-raises the `RequestException`
(lines 228-230 and 250-252): the caller receives only the exception — the
local `all_jobs` accumulator is not part of it. -/
def fetchAllJobs (today : String) (script : List FetchOutcome) : SimResult :=
  match fetchLoopAux 3 5 100 today script initSt with
  | .finished st =>
    match finalize st.acc with
    | .ok r => .ok r
    | .error e => .exc e
  | .raised _ => .exc .requestException
  | .outOfScript _ => .outOfScript

/-- The record-level content of the post-date filter, proved below to agree
with `finalize` whenever no date raises: keep a record exactly when its
`post_date` converts to a date on or after the hard-coded bound. -/
def keepRecord (p : PJob) : Option OutJob :=
  match pdCoerce p.post_date with
  | some d =>
    if minPostDate.key ≤ d.key then some ⟨some d, p.date_found, p.payload⟩ else none
  | none => none

/-- Length of the loop's internal accumulator at exit, whatever the exit
kind — the per-page record counts are visible in the log, never in the
return value. -/
def accLenOf : LoopRes → ℕ
  | .finished st => st.acc.length
  | .raised st => st.acc.length
  | .outOfScript st => st.acc.length

/-- Concrete raw jobs used in the concrete runs. -/
def exJob1 : RawJob := ⟨.parsed 2025 3 1, 1⟩

def exJobOld : RawJob := ⟨.parsed 2024 12 31, 2⟩

def exJobNoDate : RawJob := ⟨.missing, 3⟩

def exJobBad : RawJob := ⟨.unparseable "garbage", 4⟩

/-- A full page: exactly `limit = 100` records, so the loop advances to the
next page. -/
def fullPage : List RawJob := List.replicate 100 exJob1

/-- Script: one successful full page, then four consecutive transport
failures — enough to exhaust `max_retries = 3`. -/
def scriptC2 : List FetchOutcome := .ok fullPage :: List.replicate 4 .err

/-- Script: a single page containing one good record and one record whose
`posted_at` pandas cannot parse. -/
def scriptC10 : List FetchOutcome := [.ok [exJob1, exJobBad]]

/- ------------------------------------------------------------------
   src/data_utils.py: class DataValidator.

   String primitives are modelled over the character list of a `String`
   (ASCII view of Python's `\s`, `\w` and `strip`; the concrete inputs in
   the theorems are ASCII).
   ------------------------------------------------------------------ -/

/-- Python `\s` (ASCII range): space, tab, newline, carriage return, form
feed, vertical tab. -/
def isPySpace (c : Char) : Bool :=
  c = ' ' || c = '\t' || c = '\n' || c = '\x0d' || c = '\x0c' || c = '\x0b'

/-- Python `\w` (ASCII range): alphanumeric or underscore. -/
def isWordChar (c : Char) : Bool :=
  c.isAlphanum || c = '_'

/-- Python `str.strip()`: drop leading and trailing whitespace. -/
def pyStrip (s : String) : String :=
  ⟨((s.toList.dropWhile isPySpace).reverse.dropWhile isPySpace).reverse⟩

/-- Model of `re.sub` of `\s+` to a single space: collapse every whitespace run.
The flag records whether the previous character was part of a run. -/
def collapseWsAux : List Char → Bool → List Char
  | [], _ => []
  | c :: cs, prevSpace =>
    if isPySpace c then
      if prevSpace then collapseWsAux cs true
      else ' ' :: collapseWsAux cs true
    else c :: collapseWsAux cs false

/-- Model of `clean_text_fields` per string (lines 241-254): strip, collapse
whitespace runs to one space, delete characters outside `[\w\s-]`. -/
def cleanTextStr (s : String) : String :=
  ⟨(collapseWsAux (pyStrip s).toList false).filter
      (fun c => isWordChar c || isPySpace c || c = '-')⟩

/-- Model of `df['url'].str.contains('^https?://', na=False)` for a string value: the
anchored pattern holds exactly when the string starts with `http://` or
`https://`. -/
def startsWithHttp (s : String) : Bool :=
  "http://".toList.isPrefixOf s.toList || "https://".toList.isPrefixOf s.toList

/-- Split off the scheme of the validity pattern `^https?://`, returning the
remaining characters. -/
def stripScheme (cs : List Char) : Option (List Char) :=
  if "https://".toList.isPrefixOf cs then some (cs.drop 8)
  else if "http://".toList.isPrefixOf cs then some (cs.drop 7)
  else none

/-- The well-formedness check of line 234:
`re.match(r'^https?://[^\s/$.?#].[^\s]*$', url)`.  After the scheme there
must be one character outside `\s/$.?#`, then any character except a
newline, then any run of non-whitespace up to the end. -/
def validUrl (s : String) : Bool :=
  match stripScheme s.toList with
  | some (c1 :: c2 :: rest) =>
    !(isPySpace c1 || c1 = '/' || c1 = '$' || c1 = '.' || c1 = '?' || c1 = '#')
      && !(c2 = '\n') && rest.all (fun c => !isPySpace c)
  | _ => false

/-- The net effect of lines 227-231 on one string value: strip surrounding
whitespace, then prepend `https://` exactly when the stripped value does not
already start with `http://` or `https://`. -/
def repairUrlStr (s : String) : String :=
  let t := pyStrip s
  if startsWithHttp t then t else "https://" ++ t

/-- A string cell together with the verdicts of the three external date
parsers on it: `pd.to_datetime(s, errors='coerce')` elementwise
(`pandasP`), the first `datetime.strptime` success over the six
`DATE_FORMATS` (`strictP`), and `dateparser.parse(s)` (`dateparserP`).
`isNa` is `pd.isna` of the original cell. -/
structure StrTok where
  s : String
  isNa : Bool
  pandasP : Option SDate
  strictP : Option SDate
  dateparserP : Option SDate
deriving DecidableEq, Repr

/-- Model of `DataValidator.parse_date_with_formats` (lines 176-196): `None` for a
missing value; otherwise the six strict formats in order, then the
permissive `dateparser` fallback, else `None`.  (A `dateparser` exception is
caught and also yields `None`; the token carries the resulting verdict.) -/
def parse_date_with_formats (tok : StrTok) : Option SDate :=
  if tok.isNa then none
  else
    match tok.strictP with
    | some d => some d
    | none => tok.dateparserP

/-- The token for the literal string `"NaT"` — `str(pd.NaT)` — which none of
the parsers accepts: `strptime` fails all six formats and
`dateparser.parse("NaT")` returns `None`. -/
def natTok : StrTok := ⟨"NaT", false, none, none, none⟩

/-- The net effect of `repair_dates` (lines 198-220) on one date-column
value.  Line 205 first overwrites the column with
`pd.to_datetime(..., errors='coerce')`; for the rows left as `NaT`, line 212
then reads `str(df.loc[idx, date_column])` — the *already coerced* cell, the
string `"NaT"` — and hands that to `parse_date_with_formats`. -/
def repairDateValue (tok : StrTok) : Option SDate :=
  match tok.pandasP with
  | some d => some d
  | none =>
    match parse_date_with_formats natTok with
    | some d => some d
    | none => none

/-- Concrete token: an ISO date string; pandas, the strict formats and
dateparser all read it as 2025-03-01. -/
def isoMarchTok : StrTok :=
  ⟨"2025-03-01", false, some ⟨2025, 3, 1⟩, some ⟨2025, 3, 1⟩, some ⟨2025, 3, 1⟩⟩

/-- Concrete token: the French date string `"1 mars 2025"`.  `pd.to_datetime`
(dateutil, English month names) cannot parse it and coerces it to `NaT`; the
six strict formats all fail; the multilingual `dateparser` reads it as
2025-03-01. -/
def frenchMarchTok : StrTok := ⟨"1 mars 2025", false, none, none, some ⟨2025, 3, 1⟩⟩

/-- Concrete token: a string no parser accepts. -/
def notADateTok : StrTok := ⟨"not a date", false, none, none, none⟩

/- ------------------------------------------------------------------
   DataFrames for the validation pipeline: an ordered list of named
   columns over a small cell universe.  Mixed columns are viewed with
   pandas object-dtype semantics: under a `.str` accessor a non-string
   cell becomes `NaN`.
   ------------------------------------------------------------------ -/

/-- A cell: a missing value (`None`/`NaN`/`NaT`), a string (carrying the
date-parser verdicts, unused outside date columns), or an already converted
datetime value. -/
inductive Cell
  | pynone
  | pystr (tok : StrTok)
  | pdate (d : Option SDate)
deriving DecidableEq, Repr

/-- A DataFrame: its row count and its named columns in order. -/
structure DF where
  nrows : ℕ
  cols : List (String × List Cell)
deriving DecidableEq, Repr

/-- Model of `DataValidator.REQUIRED_COLUMNS` (lines 137-139). -/
def REQUIRED_COLUMNS : List String :=
  ["date_found", "post_date", "platform", "company", "title", "url", "location"]

/-- Model of `validate_csv_structure` (lines 153-166): the missing required columns,
and validity as their absence. -/
def validate_csv_structure (df : DF) : Bool × List String :=
  let missing := REQUIRED_COLUMNS.filter (fun c => (df.cols.lookup c).isNone)
  (missing.isEmpty, missing)

/-- The loop of `repair_missing_columns` (lines 168-174) over a name list:
append each absent column filled with `None`. -/
def addMissing : List String → DF → DF
  | [], df => df
  | c :: cs, df =>
    addMissing cs
      (if (df.cols.lookup c).isSome then df
       else { df with cols := df.cols ++ [(c, List.replicate df.nrows Cell.pynone)] })

/-- Model of `repair_missing_columns` (lines 168-174). -/
def repair_missing_columns (df : DF) : DF := addMissing REQUIRED_COLUMNS df

/-- One date-column cell after `repair_dates`: the coercion of line 205,
then — for a cell left `NaT` — the dead fallback that parses the literal
string `"NaT"` (see `repairDateValue`). -/
def repairDateCellFull : Cell → Cell
  | .pystr t => .pdate (repairDateValue t)
  | .pynone =>
    .pdate (match parse_date_with_formats natTok with
            | some d => some d
            | none => none)
  | .pdate d => .pdate d

/-- One pass of the `repair_dates` loop body (lines 200-218) for one column
name: if the column exists, coerce it and run the fallback on the `NaT`
rows. -/
def repairDateCol (cname : String) (d : DF) : DF :=
  match d.cols.lookup cname with
  | some col => { d with cols := assocSet cname (col.map repairDateCellFull) d.cols }
  | none => d

/-- Model of `repair_dates` (lines 198-220): the loop runs over
`['date_found', 'post_date']` in that order. -/
def repair_dates (df : DF) : DF :=
  repairDateCol "post_date" (repairDateCol "date_found" df)

/-- Model of `df['url'].str.strip()` on one cell: strings are stripped, anything else
becomes `NaN` under the `.str` accessor. -/
def stripCell : Cell → Cell
  | .pystr t => .pystr { t with s := pyStrip t.s }
  | .pynone => .pynone
  | .pdate _ => .pynone

/-- Lines 230-231 on one stripped cell: cells matching `^https?://` are left
alone; for the rest the assignment computes `'https://' + value`, which on a
`NaN` (a float) raises `TypeError` before anything is assigned. -/
def urlPrependCell : Cell → Except PyErr Cell
  | .pystr t =>
    .ok (.pystr (if startsWithHttp t.s then t else { t with s := "https://" ++ t.s }))
  | .pynone => .error .typeError
  | .pdate _ => .error .typeError

/-- The prepend step over the whole column, failing like the Python
assignment does: on the first masked non-string cell. -/
def urlRepairColumn : List Cell → Except PyErr (List Cell)
  | [] => .ok []
  | c :: cs =>
    match urlPrependCell c with
    | .error e => .error e
    | .ok c1 =>
      match urlRepairColumn cs with
      | .error e => .error e
      | .ok cs1 => .ok (c1 :: cs1)

/-- Model of `validate_urls` (lines 222-238).  The strip of line 227 is assigned back
to the DataFrame before the prepend of line 231 runs, so when the prepend
raises, the caller's frame already holds the stripped column.  The final
invalid-URL scan (line 234) only logs (`validUrl` above); it changes no
cell and drops no row. -/
def validate_urls (df : DF) : DF × Option PyErr :=
  match df.cols.lookup "url" with
  | none => (df, none)
  | some col =>
    match urlRepairColumn (col.map stripCell) with
    | .ok repaired =>
      ({ df with cols :=
          (assocSet "url" repaired (assocSet "url" (col.map stripCell) df.cols)) }, none)
    | .error e =>
      ({ df with cols := (assocSet "url" (col.map stripCell) df.cols) }, some e)

/-- One cell of `clean_text_fields`: strings are cleaned, anything else
becomes `NaN` under `.str`. -/
def cleanTextCell : Cell → Cell
  | .pystr t => .pystr { t with s := cleanTextStr t.s }
  | .pynone => .pynone
  | .pdate _ => .pynone

/-- One pass of the `clean_text_fields` loop (lines 241-254) for one column
name. -/
def cleanTextCol (cname : String) (d : DF) : DF :=
  match d.cols.lookup cname with
  | some col => { d with cols := assocSet cname (col.map cleanTextCell) d.cols }
  | none => d

/-- Model of `clean_text_fields` (lines 241-254): over `['company', 'title']`. -/
def clean_text_fields (df : DF) : DF :=
  cleanTextCol "title" (cleanTextCol "company" df)

/-- Model of `validate_and_repair_data` (lines 256-285): structural repair when
needed, then dates, URLs, text — all inside one `try`.  The only step that
can raise inside this cell universe is the URL prepend; the top-level
`except` then returns the data frame as mutated so far together with
`False`.  On the exception-free path the function returns `True`
unconditionally — the structural-validity boolean computed at line 267 is
not the one returned. -/
def validate_and_repair_data (df : DF) : DF × Bool :=
  match validate_urls (repair_dates
      (if (validate_csv_structure df).1 then df else repair_missing_columns df)) with
  | (df3, some _) => (df3, false)
  | (df3, none) => (clean_text_fields df3, true)

/-- A plain string cell (its date-parser verdicts are irrelevant in non-date
columns and set to the verdicts for a non-date string). -/
def strCell (s : String) : Cell := .pystr ⟨s, false, none, none, none⟩

/-- Concrete frame for the structural-repair run: one row, only a `url`
column — six of the seven required columns are missing. -/
def dfOnlyUrl : DF := ⟨1, [("url", [strCell "https://x.com"])]⟩

/- ------------------------------------------------------------------
   Association-list lemmas for `assocSet` / `List.lookup`.
   ------------------------------------------------------------------ -/

theorem lookup_cons_eq {β : Type} (k : String) (v : β) (l : List (String × β)) :
    ((k, v) :: l).lookup k = some v := by
  simp [List.lookup]

theorem lookup_cons_ne {β : Type} (a k : String) (v : β) (l : List (String × β))
    (hb : (a == k) = false) : ((k, v) :: l).lookup a = l.lookup a := by
  simp [List.lookup, hb]

theorem lookup_mapReplace {β : Type} (k : String) (v : β) (l : List (String × β)) :
    (l.map (fun p => if p.1 = k then (k, v) else p)).lookup k
      = if (l.lookup k).isSome then some v else none := by
  induction l with
  | nil => simp
  | cons p t ih =>
    obtain ⟨pk, pv⟩ := p
    dsimp only [List.map_cons]
    by_cases hp : pk = k
    · rw [if_pos hp]
      subst hp
      rw [lookup_cons_eq, lookup_cons_eq]
      rfl
    · rw [if_neg hp]
      have hb : (k == pk) = false := beq_false_of_ne (fun h => hp h.symm)
      rw [lookup_cons_ne k pk pv _ hb, lookup_cons_ne k pk pv t hb, ih]

theorem lookup_mapReplace_ne {β : Type} (k a : String) (v : β) (l : List (String × β))
    (h : a ≠ k) :
    (l.map (fun p => if p.1 = k then (k, v) else p)).lookup a = l.lookup a := by
  induction l with
  | nil => simp
  | cons p t ih =>
    obtain ⟨pk, pv⟩ := p
    dsimp only [List.map_cons]
    by_cases hp : pk = k
    · rw [if_pos hp]
      have hak : (a == k) = false := beq_false_of_ne h
      have hapk : (a == pk) = false := beq_false_of_ne (fun hh => h (hp ▸ hh))
      rw [lookup_cons_ne a k v _ hak, lookup_cons_ne a pk pv t hapk, ih]
    · rw [if_neg hp]
      by_cases hap : a = pk
      · subst hap
        rw [lookup_cons_eq, lookup_cons_eq]
      · have hb : (a == pk) = false := beq_false_of_ne hap
        rw [lookup_cons_ne a pk pv _ hb, lookup_cons_ne a pk pv t hb, ih]

theorem lookup_append_of_some {β : Type} (l1 l2 : List (String × β)) (a : String) (v : β)
    (h : l1.lookup a = some v) : (l1 ++ l2).lookup a = some v := by
  induction l1 with
  | nil => simp [List.lookup] at h
  | cons p t ih =>
    obtain ⟨k, b⟩ := p
    rw [List.cons_append]
    by_cases hp : a = k
    · subst hp
      rw [lookup_cons_eq] at h
      rw [lookup_cons_eq]
      exact h
    · have hb : (a == k) = false := beq_false_of_ne hp
      rw [lookup_cons_ne a k b t hb] at h
      rw [lookup_cons_ne a k b _ hb]
      exact ih h

theorem lookup_append_of_none {β : Type} (l1 l2 : List (String × β)) (a : String)
    (h : l1.lookup a = none) : (l1 ++ l2).lookup a = l2.lookup a := by
  induction l1 with
  | nil => simp
  | cons p t ih =>
    obtain ⟨k, b⟩ := p
    rw [List.cons_append]
    by_cases hp : a = k
    · subst hp
      rw [lookup_cons_eq] at h
      exact absurd h (by simp)
    · have hb : (a == k) = false := beq_false_of_ne hp
      rw [lookup_cons_ne a k b t hb] at h
      rw [lookup_cons_ne a k b _ hb]
      exact ih h

theorem lookup_assocSet_self {β : Type} (k : String) (v : β) (l : List (String × β)) :
    (assocSet k v l).lookup k = some v := by
  unfold assocSet
  split
  · rename_i h
    rw [lookup_mapReplace]; simp [h]
  · rename_i h
    have hn : l.lookup k = none := by
      cases hl : l.lookup k with
      | none => rfl
      | some w => rw [hl] at h; simp at h
    rw [lookup_append_of_none _ _ _ hn, lookup_cons_eq]

theorem lookup_assocSet_ne {β : Type} (k a : String) (v : β) (l : List (String × β))
    (h : a ≠ k) : (assocSet k v l).lookup a = l.lookup a := by
  unfold assocSet
  split
  · exact lookup_mapReplace_ne k a v l h
  · cases hl : l.lookup a with
    | some w => exact lookup_append_of_some l [(k, v)] a w hl
    | none =>
      rw [lookup_append_of_none _ _ _ hl,
        lookup_cons_ne a k v [] (beq_false_of_ne h)]
      rfl

theorem isSome_lookup_assocSet {β : Type} (k a : String) (v : β) (l : List (String × β))
    (h : (l.lookup a).isSome = true) : ((assocSet k v l).lookup a).isSome = true := by
  by_cases hak : a = k
  · subst hak; rw [lookup_assocSet_self]; rfl
  · rw [lookup_assocSet_ne k a v l hak]; exact h

theorem isSome_lookup_append {β : Type} (l : List (String × β)) (k a : String) (v : β)
    (h : (l.lookup a).isSome = true) : ((l ++ [(k, v)]).lookup a).isSome = true := by
  cases hl : l.lookup a with
  | none => rw [hl] at h; simp at h
  | some w => rw [lookup_append_of_some _ _ _ _ hl]; rfl

theorem isSome_lookup_append_self {β : Type} (l : List (String × β)) (k : String) (v : β) :
    ((l ++ [(k, v)]).lookup k).isSome = true := by
  cases hl : l.lookup k with
  | some w => rw [lookup_append_of_some _ _ _ _ hl]; rfl
  | none => rw [lookup_append_of_none _ _ _ hl, lookup_cons_eq]; rfl

/- ------------------------------------------------------------------
   Column-presence lemmas for the validation pipeline.
   ------------------------------------------------------------------ -/

theorem addMissing_pres (l : List String) (df : DF) (a : String)
    (h : (df.cols.lookup a).isSome = true) :
    ((addMissing l df).cols.lookup a).isSome = true := by
  induction l generalizing df with
  | nil => exact h
  | cons c cs ih =>
    simp only [addMissing]
    split
    · exact ih df h
    · exact ih _ (isSome_lookup_append _ _ _ _ h)

theorem addMissing_adds (l : List String) (df : DF) (a : String) (ha : a ∈ l) :
    ((addMissing l df).cols.lookup a).isSome = true := by
  induction l generalizing df with
  | nil => cases ha
  | cons c cs ih =>
    rcases List.mem_cons.mp ha with h1 | h2
    · subst h1
      simp only [addMissing]
      split
      · rename_i hs
        exact addMissing_pres cs _ a hs
      · exact addMissing_pres cs _ a (isSome_lookup_append_self _ _ _)
    · simp only [addMissing]
      split
      · exact ih _ h2
      · exact ih _ h2

theorem repairDateCol_pres (cname a : String) (df : DF)
    (h : (df.cols.lookup a).isSome = true) :
    ((repairDateCol cname df).cols.lookup a).isSome = true := by
  unfold repairDateCol
  split
  · exact isSome_lookup_assocSet _ _ _ _ h
  · exact h

theorem cleanTextCol_pres (cname a : String) (df : DF)
    (h : (df.cols.lookup a).isSome = true) :
    ((cleanTextCol cname df).cols.lookup a).isSome = true := by
  unfold cleanTextCol
  split
  · exact isSome_lookup_assocSet _ _ _ _ h
  · exact h

theorem validate_urls_pres (df : DF) (a : String)
    (h : (df.cols.lookup a).isSome = true) :
    (((validate_urls df).1).cols.lookup a).isSome = true := by
  unfold validate_urls
  split
  · exact h
  · split
    · exact isSome_lookup_assocSet _ _ _ _ (isSome_lookup_assocSet _ _ _ _ h)
    · exact isSome_lookup_assocSet _ _ _ _ h

theorem urlRepairColumn_length (l l2 : List Cell) (h : urlRepairColumn l = .ok l2) :
    l2.length = l.length := by
  induction l generalizing l2 with
  | nil =>
    simp only [urlRepairColumn] at h
    cases h
    rfl
  | cons c cs ih =>
    simp only [urlRepairColumn] at h
    cases hc : urlPrependCell c with
    | error e => rw [hc] at h; cases h
    | ok c1 =>
      rw [hc] at h
      cases hcs : urlRepairColumn cs with
      | error e => rw [hcs] at h; cases h
      | ok cs1 =>
        rw [hcs] at h
        cases h
        simp [ih cs1 hcs]

theorem validate_urls_col_length (df : DF) :
    (((validate_urls df).1).cols.lookup "url").map List.length
      = (df.cols.lookup "url").map List.length := by
  unfold validate_urls
  split
  · rfl
  · rename_i col hcol
    split
    · rename_i repaired hrep
      rw [hcol]
      dsimp only
      rw [lookup_assocSet_self]
      have h1 : repaired.length = (col.map stripCell).length :=
        urlRepairColumn_length _ _ hrep
      simp [h1]
    · rw [hcol]
      dsimp only
      rw [lookup_assocSet_self]
      simp

theorem validate_urls_nrows (df : DF) : ((validate_urls df).1).nrows = df.nrows := by
  unfold validate_urls
  split
  · rfl
  · split
    · rfl
    · rfl

/- ------------------------------------------------------------------
   Lemmas for the fetch model.
   ------------------------------------------------------------------ -/

theorem pdColumn_ok (l : List PJob) (h : l.all (fun j => notRaising j.post_date) = true) :
    pdColumn l = .ok (l.map (fun j => (j, pdCoerce j.post_date))) := by
  induction l with
  | nil => rfl
  | cons j js ih =>
    rw [List.all_cons] at h
    obtain ⟨h1, h2⟩ := Bool.and_eq_true_iff.mp h
    simp only [pdColumn, List.map_cons]
    cases hd : j.post_date with
    | missing => simp [pdStrict, pdCoerce, hd, ih h2]
    | parsed y m d => simp [pdStrict, pdCoerce, hd, ih h2]
    | unparseable s => rw [hd] at h1; simp [notRaising] at h1

theorem filterPairs (l : List PJob) :
    ((l.map (fun j => (j, pdCoerce j.post_date))).filter keepB).map mkOutPair
      = l.filterMap keepRecord := by
  induction l with
  | nil => rfl
  | cons j js ih =>
    simp only [List.map_cons, List.filter_cons, List.filterMap_cons]
    cases hd : pdCoerce j.post_date with
    | none => simp [keepB, keepRecord, hd, ih]
    | some d =>
      by_cases hk : minPostDate.key ≤ d.key
      · simp [keepB, keepRecord, hd, hk, mkOutPair, ih]
      · simp [keepB, keepRecord, hd, hk, ih]

theorem finalize_ok (l : List PJob) (hne : l ≠ [])
    (h : l.all (fun j => notRaising j.post_date) = true) :
    finalize l = .ok (l.filterMap keepRecord) := by
  have hemp : l.isEmpty = false := by
    cases l with
    | nil => exact absurd rfl hne
    | cons a t => rfl
  simp only [finalize, hemp, Bool.false_eq_true, if_false, pdColumn_ok l h, filterPairs]

theorem errs_raise (today : String) (st : LoopSt) (h : st.retryCount = 0) :
    ∃ st2, fetchLoopAux 3 5 100 today (List.replicate 4 FetchOutcome.err) st
      = .raised st2 := by
  simp [List.replicate, fetchLoopAux, h]

theorem loop_exhaust (today : String) (pages : List (List RawJob)) (st : LoopSt)
    (h : pages.all (fun p => decide (p.length = 100)) = true) (hst : st.retryCount = 0) :
    ∃ st2, fetchLoopAux 3 5 100 today
      (pages.map FetchOutcome.ok ++ List.replicate 4 FetchOutcome.err) st
        = .raised st2 := by
  induction pages generalizing st with
  | nil => simpa using errs_raise today st hst
  | cons p ps ih =>
    rw [List.all_cons] at h
    obtain ⟨hp, hps⟩ := Bool.and_eq_true_iff.mp h
    have hp100 : p.length = 100 := of_decide_eq_true hp
    have hne : p.isEmpty = false := by
      cases p with
      | nil => simp at hp100
      | cons a t => rfl
    simp only [List.map_cons, List.cons_append, fetchLoopAux, hne, hp100]
    simp only [Bool.false_eq_true, if_false, lt_self_iff_false]
    exact ih _ hps hst

/- ==================================================================
   Claim theorems.
   ================================================================== -/

/-- C1: the sliding-window bound fails on the code as written.  With
`max_requests = 2` and `time_window = 6000` ticks (60 s in hundredths), a
valid single-threaded call sequence entering at ticks 0, 1, 2, 6005, 6010 is
admitted at ticks 0, 1, 6000, 6005, 6010 (call 3 sleeps 5998 ticks) — and
the trailing window `(10, 6010]` contains three admitted sends, exceeding
the budget of 2.  The cause: `wait_if_needed` appends the pre-sleep `now`
(tick 2) instead of the wake-up time (tick 6000), so calls 4 and 5 prune the
record of call 3's send and see a nearly empty window. -/
theorem rate_limiter_window_violation :
    runRL (mkRateLimiter 2 6000) [0, 1, 2, 6005, 6010]
      = .ok (⟨2, 6000, [6005, 6010]⟩, [0, 1, 6000, 6005, 6010])
    ∧ seqValid [0, 1, 2, 6005, 6010] [0, 1, 6000, 6005, 6010] = true
    ∧ 2 < countInWindow [0, 1, 6000, 6005, 6010] 10 6000 := by
  decide

/-- C9 (counterexample): `RateLimiter.__init__` rejects nothing.  With
`max_requests = 1` and the non-positive `time_window = -60` an instance is
produced, and its wait policy is nonsensical: four calls at the same tick
are all admitted immediately (every past timestamp is pruned by the negative
window), so four sends happen at tick 0 against a budget of 1. -/
theorem rate_limiter_no_validation :
    mkRateLimiter 1 (-60) = ⟨1, -60, []⟩
    ∧ runRL (mkRateLimiter 1 (-60)) [0, 0, 0, 0]
        = .ok (⟨1, -60, [0]⟩, [0, 0, 0, 0]) := by
  decide

/-- C9 (amended): construction always succeeds, storing the parameters
unvalidated; a limiter built with `max_requests = 0` fails only later, at the
first `wait_if_needed` call, which indexes the empty deque and raises
`IndexError`. -/
theorem rate_limiter_unvalidated_construction :
    (∀ m w : ℤ, mkRateLimiter m w = ⟨m, w, []⟩)
    ∧ (∀ now : ℤ, waitIfNeeded (mkRateLimiter 0 60) now = .error .indexError) :=
  ⟨fun _ _ => rfl, fun _ => rfl⟩

/-- C9 (witness): the amended behaviour at the concrete instant 0. -/
theorem rate_limiter_unvalidated_construction_witness :
    waitIfNeeded (mkRateLimiter 0 60) 0 = .error .indexError :=
  rate_limiter_unvalidated_construction.2 0

/-- C8: evaluating construction over each backing-store condition.  A
corrupt store makes `__init__` raise `AttributeError` — `_load_cache`'s
`except` handler calls `self.logger`, which `__init__` assigns only after
`_load_cache` returns — instead of degrading to an empty cache.  A missing
store does degrade to an empty cache, and a failed persist is a logged
no-op. -/
theorem cache_load_corrupt_raises :
    companyCacheInit 14 .corrupt = .error .attributeError
    ∧ companyCacheInit 14 .missing = .ok ⟨14, []⟩
    ∧ save_cache ⟨14, []⟩ true = ⟨14, []⟩ := by
  decide

/-- C7 (counterexample): an update followed by an immediate get does not
return exactly the stored payload `[("v", 1)]`: the returned mapping is the
stored entry, which also carries the `timestamp` key added by
`update_company_info`. -/
theorem cache_get_includes_timestamp :
    get_company_info (update_company_info ⟨1000, []⟩ "A" [("v", CVal.num 1)] 0) "A" 0
      = some [("v", CVal.num 1), ("timestamp", CVal.time 0)]
    ∧ get_company_info (update_company_info ⟨1000, []⟩ "A" [("v", CVal.num 1)] 0) "A" 0
        ≠ some [("v", CVal.num 1)] := by
  decide

/-- C7 (amended): starting from an empty cache with a positive ttl `d`,
`update` at `t1` followed by an immediate `get` returns the stored entry —
the payload augmented with the timestamp; once the ttl has elapsed
(`t1 + d ≤ t2`) `get` returns absent; and `cleanup_expired` then removes the
entry and reports a count of 1. -/
theorem cache_ttl_roundtrip (d : ℕ) (key : String) (payload : PyDict) (t1 t2 : ℕ)
    (hd : 0 < d) (ht : t1 + d ≤ t2) :
    get_company_info (update_company_info ⟨d, []⟩ key payload t1) key t1
      = some (assocSet "timestamp" (CVal.time t1) payload)
    ∧ get_company_info (update_company_info ⟨d, []⟩ key payload t1) key t2 = none
    ∧ cleanup_expired (update_company_info ⟨d, []⟩ key payload t1) t2 = (⟨d, []⟩, 1) := by
  have hC : update_company_info ⟨d, []⟩ key payload t1
      = ⟨d, [(key, assocSet "timestamp" (CVal.time t1) payload)]⟩ := by
    unfold update_company_info
    dsimp only
    unfold assocSet
    simp
  have hts : tsOf (assocSet "timestamp" (CVal.time t1) payload) = t1 := by
    unfold tsOf
    rw [lookup_assocSet_self]
  have hexp : decide (t1 + d ≤ t2) = true := decide_eq_true ht
  refine ⟨?_, ?_, ?_⟩
  · rw [hC]
    simp only [get_company_info, lookup_cons_eq, hts]
    rw [if_pos (by omega)]
  · rw [hC]
    simp only [get_company_info, lookup_cons_eq, hts]
    rw [if_neg (by omega)]
  · rw [hC]
    simp [cleanup_expired, List.filter, hts, hexp]


/-- C7 (witness): the amended round trip at ttl 10, key "A", payload
`[("v", 1)]`, write time 0, read time 10. -/
theorem cache_ttl_roundtrip_witness :
    get_company_info (update_company_info ⟨10, []⟩ "A" [("v", CVal.num 1)] 0) "A" 0
      = some (assocSet "timestamp" (CVal.time 0) [("v", CVal.num 1)])
    ∧ get_company_info (update_company_info ⟨10, []⟩ "A" [("v", CVal.num 1)] 0) "A" 10
        = none
    ∧ cleanup_expired (update_company_info ⟨10, []⟩ "A" [("v", CVal.num 1)] 0) 10
        = (⟨10, []⟩, 1) :=
  cache_ttl_roundtrip 10 "A" [("v", CVal.num 1)] 0 10 (by decide) (by decide)

/-- C2 (counterexample): after one successful full page (100 records) and
four consecutive transport failures, `fetch_all_jobs` exhausts
`max_retries = 3` and the caller receives only the re-raised
`RequestException`; the 100 records sitting in the loop's local accumulator
at that moment are not part of the result. -/
theorem fetch_partial_results_discarded :
    fetchAllJobs "2025-10-12" scriptC2 = .exc .requestException
    ∧ accLenOf (fetchLoopAux 3 5 100 "2025-10-12" scriptC2 initSt) = 100 := by
  decide

/-- C2 (amended): for any prefix of successful full pages followed by four
consecutive retryable failures, `fetch_all_jobs` surfaces the exhaustion by
raising — the run's result is the propagated `RequestException`, which
carries none of the previously accumulated records. -/
theorem fetch_retry_exhaustion_raises (today : String) (pages : List (List RawJob))
    (h : pages.all (fun p => decide (p.length = 100)) = true) :
    fetchAllJobs today (pages.map FetchOutcome.ok ++ List.replicate 4 FetchOutcome.err)
      = SimResult.exc PyErr.requestException := by
  obtain ⟨st2, h2⟩ := loop_exhaust today pages initSt h rfl
  unfold fetchAllJobs
  rw [h2]

/-- C2 (witness): the amended behaviour on one concrete full page followed
by four failures. -/
theorem fetch_retry_exhaustion_witness :
    fetchAllJobs "2025-10-12"
        ([fullPage].map FetchOutcome.ok ++ List.replicate 4 FetchOutcome.err)
      = SimResult.exc PyErr.requestException :=
  fetch_retry_exhaustion_raises "2025-10-12" [fullPage] (by decide)

/-- C3: with the source's `max_retries = 3 ≥ 2` and `retry_delay = 5`, a page
whose underlying request fails twice and then succeeds is eventually
fetched: exactly 3 underlying calls are issued, all for page 0 (no page
skipped or duplicated), the sleeps between attempts are
`retry_delay * attempt_number = 5, 10` (linearly increasing), the page's
records are accumulated exactly once, and `fetch_all_jobs` returns them
(post-date filter applied). -/
theorem fetch_fail_fail_success (today : String) (js : List RawJob)
    (h1 : js ≠ []) (h2 : js.length < 100)
    (h3 : js.all (fun j => notRaising j.posted_at) = true) :
    fetchLoopAux 3 5 100 today
        [FetchOutcome.err, FetchOutcome.err, FetchOutcome.ok js] initSt
      = .finished ⟨0, 2, js.map (processJob today), 3, [5, 10], [0, 0, 0]⟩
    ∧ fetchAllJobs today [FetchOutcome.err, FetchOutcome.err, FetchOutcome.ok js]
      = .ok ((js.map (processJob today)).filterMap keepRecord) := by
  have hne : js.isEmpty = false := by
    cases js with
    | nil => exact absurd rfl h1
    | cons a t => rfl
  have hloop : fetchLoopAux 3 5 100 today
      [FetchOutcome.err, FetchOutcome.err, FetchOutcome.ok js] initSt
        = .finished ⟨0, 2, js.map (processJob today), 3, [5, 10], [0, 0, 0]⟩ := by
    simp [fetchLoopAux, initSt, hne, h2]
  have hmap_ne : js.map (processJob today) ≠ [] := by
    cases js with
    | nil => exact absurd rfl h1
    | cons a t => simp
  have hmap_all : (js.map (processJob today)).all (fun j => notRaising j.post_date)
      = true := by
    simpa [List.all_map, Function.comp, processJob] using h3
  refine ⟨hloop, ?_⟩
  simp [fetchAllJobs, hloop, finalize_ok _ hmap_ne hmap_all]

/-- C3 (witness): the fail-fail-success run on the one-record page
`[exJob1]`. -/
theorem fetch_fail_fail_success_witness :
    fetchLoopAux 3 5 100 "2025-10-12"
        [FetchOutcome.err, FetchOutcome.err, FetchOutcome.ok [exJob1]] initSt
      = .finished ⟨0, 2, [exJob1].map (processJob "2025-10-12"), 3, [5, 10], [0, 0, 0]⟩
    ∧ fetchAllJobs "2025-10-12" [FetchOutcome.err, FetchOutcome.err, FetchOutcome.ok [exJob1]]
      = .ok (([exJob1].map (processJob "2025-10-12")).filterMap keepRecord) :=
  fetch_fail_fail_success "2025-10-12" [exJob1] (by decide) (by decide) (by decide)

/-- C10 (counterexample): a page containing one good record and one record
whose `posted_at` pandas cannot parse does not yield a DataFrame with the
bad record silently excluded — `pd.to_datetime` is called with its default
raising behaviour, so the whole run raises. -/
theorem fetch_unparseable_date_raises :
    fetchAllJobs "2025-10-12" scriptC10 = .exc .valueError
    ∧ ¬ (fetchAllJobs "2025-10-12" scriptC10
          = .ok [⟨some ⟨2025, 3, 1⟩, "2025-10-12", 1⟩]) := by
  decide

/-- C10 (amended): when every accumulated `posted_at` is either missing or
pandas-parseable, the returned DataFrame contains exactly the accumulated
records whose post date converts to a datetime on or after the hard-coded
bound 2025-01-01 (`minPostDate`, a constant, not a parameter); records with
a missing `posted_at` become `NaT` and are silently excluded.  (When some
`posted_at` is a string pandas cannot parse, the run instead raises — see
the counterexample.) -/
theorem fetch_date_filter_amended (today : String) (js : List RawJob)
    (h1 : js ≠ []) (h2 : js.length < 100)
    (h3 : js.all (fun j => notRaising j.posted_at) = true) :
    fetchAllJobs today [FetchOutcome.ok js]
      = .ok ((js.map (processJob today)).filterMap keepRecord) := by
  have hne : js.isEmpty = false := by
    cases js with
    | nil => exact absurd rfl h1
    | cons a t => rfl
  have hloop : fetchLoopAux 3 5 100 today [FetchOutcome.ok js] initSt
      = .finished ⟨0, 0, js.map (processJob today), 1, [], [0]⟩ := by
    simp [fetchLoopAux, initSt, hne, h2]
  have hmap_ne : js.map (processJob today) ≠ [] := by
    cases js with
    | nil => exact absurd rfl h1
    | cons a t => simp
  have hmap_all : (js.map (processJob today)).all (fun j => notRaising j.post_date)
      = true := by
    simpa [List.all_map, Function.comp, processJob] using h3
  simp [fetchAllJobs, hloop, finalize_ok _ hmap_ne hmap_all]

/-- C10 (witness): the amended filter on a page with an in-range record, an
out-of-range record and a missing date. -/
theorem fetch_date_filter_witness :
    fetchAllJobs "2025-10-12" [FetchOutcome.ok [exJob1, exJobOld, exJobNoDate]]
      = .ok (([exJob1, exJobOld, exJobNoDate].map (processJob "2025-10-12")).filterMap
          keepRecord) :=
  fetch_date_filter_amended "2025-10-12" [exJob1, exJobOld, exJobNoDate]
    (by decide) (by decide) (by decide)

/-- C4: the date-repair cascade is dead code in `repair_dates`.  For every
date-column value the repaired result equals the initial
`pd.to_datetime(..., errors='coerce')` verdict alone, because the strict
formats and the permissive fallback are applied to the already-coerced cell
(the literal string `"NaT"`), never to the original value.  Concretely:
`"2025-03-01"` comes out right (via the coercion, not the cascade);
`"not a date"` ends as `NaT` with no exception; but `"1 mars 2025"` — which
the permissive `dateparser` reads as 2025-03-01, as the repository's own
`parse_date_with_formats` would if it ever saw the original string — ends as
`NaT`. -/
theorem date_repair_fallback_dead :
    repairDateValue isoMarchTok = some ⟨2025, 3, 1⟩
    ∧ repairDateValue notADateTok = none
    ∧ repairDateValue frenchMarchTok = none
    ∧ parse_date_with_formats frenchMarchTok = some ⟨2025, 3, 1⟩
    ∧ (∀ t : StrTok, repairDateValue t = t.pandasP) := by
  refine ⟨rfl, rfl, rfl, rfl, ?_⟩
  intro t
  cases h : t.pandasP <;> simp [repairDateValue, parse_date_with_formats, natTok, h]

/-- C5 (counterexample): a frame with only a `url` column — six of the seven
required columns absent — is structurally invalid, yet
`validate_and_repair_data` returns `True`: the returned boolean does not
indicate whether every canonical column was present. -/
theorem validate_repair_true_despite_missing :
    (validate_csv_structure dfOnlyUrl).1 = false
    ∧ (validate_and_repair_data dfOnlyUrl).2 = true := by
  decide

/-- C5 (amended): `validate_and_repair_data` is total (never raises) and
always returns a best-effort repaired frame in which every required column
is present; the returned boolean is `True` iff the repair body ran without
an internal exception — `True` even when structural repair was needed, and
`False` exactly when a step (the URL prepend) raised. -/
theorem validate_repair_bool_semantics :
    (∀ df : DF, ((validate_and_repair_data df).2 = true
        ↔ (validate_urls (repair_dates (if (validate_csv_structure df).1 then df
            else repair_missing_columns df))).2 = none))
    ∧ (∀ df : DF, REQUIRED_COLUMNS.all
        (fun c => (((validate_and_repair_data df).1).cols.lookup c).isSome) = true) := by
  constructor
  · intro df
    rcases h : validate_urls (repair_dates (if (validate_csv_structure df).1 then df
        else repair_missing_columns df)) with ⟨d3, o⟩
    cases o with
    | none => simp [validate_and_repair_data, h]
    | some e => simp [validate_and_repair_data, h]
  · intro df
    rw [List.all_eq_true]
    intro c hc
    have h1 : (((if (validate_csv_structure df).1 then df
        else repair_missing_columns df) : DF).cols.lookup c).isSome = true := by
      by_cases hv : (validate_csv_structure df).1 = true
      · rw [if_pos hv]
        unfold validate_csv_structure at hv
        dsimp only at hv
        rw [List.isEmpty_iff, List.filter_eq_nil_iff] at hv
        have hnn := hv c hc
        cases hl : df.cols.lookup c with
        | some v => rfl
        | none => exact absurd (by rw [hl]; rfl) hnn
      · rw [if_neg hv]
        exact addMissing_adds REQUIRED_COLUMNS df c hc
    have h2 := repairDateCol_pres "post_date" c _
      (repairDateCol_pres "date_found" c _ h1)
    have h3 := validate_urls_pres (repair_dates (if (validate_csv_structure df).1 then df
        else repair_missing_columns df)) c h2
    rcases h : validate_urls (repair_dates (if (validate_csv_structure df).1 then df
        else repair_missing_columns df)) with ⟨d3, o⟩
    rw [h] at h3
    cases o with
    | some e =>
      simp only [validate_and_repair_data, h]
      exact h3
    | none =>
      simp only [validate_and_repair_data, h]
      exact cleanTextCol_pres "title" c _ (cleanTextCol_pres "company" c _ h3)

/-- C5 (witness): the amended statement applied to the concrete frame with
only a `url` column. -/
theorem validate_repair_bool_semantics_witness :
    ((validate_and_repair_data dfOnlyUrl).2 = true
      ↔ (validate_urls (repair_dates (if (validate_csv_structure dfOnlyUrl).1 then dfOnlyUrl
          else repair_missing_columns dfOnlyUrl))).2 = none)
    ∧ REQUIRED_COLUMNS.all
        (fun c => (((validate_and_repair_data dfOnlyUrl).1).cols.lookup c).isSome) = true :=
  ⟨validate_repair_bool_semantics.1 dfOnlyUrl, validate_repair_bool_semantics.2 dfOnlyUrl⟩

/-- C6 (counterexample): `'ht!tp://bad'` is repaired to
`'https://ht!tp://bad'`, and that repaired value *matches* the
well-formed-URL pattern (`h` is an allowed first character, `.` matches `t`,
and the rest contains no whitespace) — so it is not flagged invalid,
contrary to the claim. -/
theorem url_bad_scheme_not_flagged :
    repairUrlStr "ht!tp://bad" = "https://ht!tp://bad"
    ∧ validUrl "https://ht!tp://bad" = true := by
  decide

/-- C6 (amended): URL repair preserves the column's length (no row dropped)
and the frame's row count; every string cell goes through
`repairUrlStr` — strip, then prepend `https://` exactly when the scheme is
missing — so every repaired value carries a scheme; the two positive
examples behave as claimed, while `'ht!tp://bad'` becomes
`'https://ht!tp://bad'`, which passes the validity pattern and is not
flagged (its row is retained like every other). -/
theorem url_repair_semantics :
    (∀ df : DF, (((validate_urls df).1).cols.lookup "url").map List.length
        = (df.cols.lookup "url").map List.length)
    ∧ (∀ df : DF, ((validate_urls df).1).nrows = df.nrows)
    ∧ (∀ t : StrTok, urlPrependCell (stripCell (Cell.pystr t))
        = Except.ok (Cell.pystr { t with s := repairUrlStr t.s }))
    ∧ (∀ s : String, startsWithHttp (repairUrlStr s) = true)
    ∧ repairUrlStr "example.com/job/1" = "https://example.com/job/1"
    ∧ repairUrlStr " https://x.com " = "https://x.com"
    ∧ repairUrlStr "ht!tp://bad" = "https://ht!tp://bad"
    ∧ validUrl (repairUrlStr "example.com/job/1") = true
    ∧ validUrl (repairUrlStr " https://x.com ") = true := by
  refine ⟨validate_urls_col_length, validate_urls_nrows, ?_, ?_,
    by decide, by decide, by decide, by decide, by decide⟩
  · intro t
    by_cases h : startsWithHttp (pyStrip t.s) = true
    · simp [stripCell, urlPrependCell, repairUrlStr, h]
    · simp [stripCell, urlPrependCell, repairUrlStr, h]
  · intro s
    unfold repairUrlStr
    by_cases h : startsWithHttp (pyStrip s) = true
    · rw [if_pos h]
      exact h
    · rw [if_neg (by simpa using h)]
      have hpre : "https://".toList.isPrefixOf ("https://" ++ pyStrip s).toList = true := by
        rw [ List.isPrefixOf_iff_prefix]
        have hdata : ("https://" ++ pyStrip s).toList
            = "https://".toList ++ (pyStrip s).toList := String.data_append _ _
        rw [hdata]
        exact List.prefix_append _ _
      simp [startsWithHttp, hpre]

/-- C6 (witness): the amended statement's universally quantified parts at a
concrete frame and token. -/
theorem url_repair_semantics_witness :
    (((validate_urls dfOnlyUrl).1).cols.lookup "url").map List.length
      = (dfOnlyUrl.cols.lookup "url").map List.length
    ∧ startsWithHttp (repairUrlStr "example.com/job/1") = true :=
  ⟨url_repair_semantics.1 dfOnlyUrl, url_repair_semantics.2.2.2.1 "example.com/job/1"⟩
